import Mathlib

/-!
Shallow embedding of `statusline.py`: a program that reads one JSON payload
from stdin, looks up an OAuth credential in a platform-dependent store,
fetches account usage over HTTP, and prints one ANSI-colored status line.

External library effects (Python's `json.loads`, `datetime.fromisoformat`,
`subprocess.run` of the keychain tool, the filesystem read, and the HTTP
request) are modelled as explicit parameters / outcome values; everything
the script itself computes is translated directly from the source.
Python exceptions are modelled with `Except PyError`: a `.error` value is an
exception that propagates past the modelled code (for `main`, a non-zero
process exit), `.ok` is normal completion (for `main`, the printed line and
exit code 0).
-/

namespace Statusline

/-- ANSI color constant `BLUE = "\033[34m"` from the source. -/
def BLUE : String := "\x1b[34m"

/-- ANSI color constant `GREEN = "\033[32m"` from the source. -/
def GREEN : String := "\x1b[32m"

/-- ANSI color constant `YELLOW = "\033[33m"` from the source. -/
def YELLOW : String := "\x1b[33m"

/-- ANSI color constant `RED = "\033[31m"` from the source. -/
def RED : String := "\x1b[31m"

/-- ANSI reset constant `RESET = "\033[0m"` from the source. -/
def RESET : String := "\x1b[0m"

/-- A JSON value as produced by Python's `json.loads`: `None`, `bool`, a
number (modelled as an exact rational), `str`, `list`, or `dict` (an
association list; `json.loads` never yields duplicate keys). -/
inductive JValue : Type
  | null : JValue
  | bool (b : Bool) : JValue
  | num (q : ℚ) : JValue
  | str (s : String) : JValue
  | arr (xs : List JValue) : JValue
  | obj (fields : List (String × JValue)) : JValue

/-- The Python exception classes that the modelled code can raise past a
modelled boundary. -/
inductive PyError : Type
  | attributeError : PyError
  | typeError : PyError
  | valueError : PyError
  | permissionError : PyError
  | unicodeDecodeError : PyError
deriving DecidableEq

/-- Python truthiness (`if x:`) for JSON-derived values: `None`, `False`,
`0`, `""`, `[]` and an empty dict are falsy, everything else truthy. -/
def pyTruthy : JValue → Bool
  | .null => false
  | .bool b => b
  | .num q => decide (q ≠ 0)
  | .str s => decide (s ≠ "")
  | .arr xs => !xs.isEmpty
  | .obj fs => !fs.isEmpty

/-- Python `v.get(key, default)`. On a dict it returns the stored value or
the default; on any non-dict value the attribute access `.get` raises
`AttributeError`. -/
def pyGet (v : JValue) (key : String) (default : JValue) :
    Except PyError JValue :=
  match v with
  | .obj fields => .ok ((fields.lookup key).getD default)
  | _ => .error .attributeError

/-- Python `a or b` for JSON-derived values (used as `... or 0`). -/
def pyOr (a b : JValue) : JValue := if pyTruthy a then a else b

/-- Python `str()` as applied by the f-string in line 50 of the source to
the model value. On a `str` it is the identity; claims only exercise that
case, the remaining renderings are nominal. -/
def pyStr : JValue → String
  | .str s => s
  | .null => "None"
  | .bool b => if b then "True" else "False"
  | .num q => toString q
  | .arr _ => "[...]"
  | .obj _ => "\x7b...\x7d"

/-- `os.path.basename` (posix), `p[p.rfind(sep) + 1:]`: the suffix of the
string after the last slash (the whole string when there is none), applied
to a value from JSON. On a non-string it raises `TypeError` (via
`os.fspath`). -/
def basename : JValue → Except PyError String
  | .str s => .ok (String.mk ((s.data.reverse.takeWhile (fun c => c != '/')).reverse))
  | _ => .error .typeError

/-- Python rounding of an exact value to an integer as performed by the
format spec `:.0f`: round to nearest, ties to even. -/
def roundHalfEven (q : ℚ) : ℤ :=
  let f := ⌊q⌋
  if q - f < 1/2 then f
  else if 1/2 < q - f then f + 1
  else if f % 2 = 0 then f else f + 1

/-- Rendering of a number by the f-string piece `x:.0f` (Python prints
`-0` for a negative value that rounds to zero). -/
def formatF0num (q : ℚ) : String :=
  let r := roundHalfEven q
  if r = 0 ∧ q < 0 then "-0" else toString r

/-- The f-string piece `x:.0f` applied to a JSON-derived value: numbers are
rounded half-to-even, `bool` is an `int` subclass in Python, a `str`
raises `ValueError` and other values raise `TypeError`. -/
def formatF0 : JValue → Except PyError String
  | .num q => .ok (formatF0num q)
  | .bool b => .ok (if b then "1" else "0")
  | .str _ => .error .valueError
  | _ => .error .typeError

/-- `get_usage_color` (lines 170-175): red for at least the high threshold
80, yellow for at least the medium threshold 50, green otherwise. -/
def get_usage_color (percentage : ℚ) : String :=
  if 80 ≤ percentage then RED
  else if 50 ≤ percentage then YELLOW
  else GREEN

/-- `get_usage_color` applied to a JSON-derived value: the comparison
`percentage >= 80` raises `TypeError` on non-numbers (`bool` compares as
its `int` value). -/
def get_usage_colorJ : JValue → Except PyError String
  | .num q => .ok (get_usage_color q)
  | .bool b => .ok (get_usage_color (if b then 1 else 0))
  | _ => .error .typeError

end Statusline

namespace Statusline

/-- A Python `datetime` as returned by `datetime.fromisoformat`:
`fieldsSeconds` is the wall-clock field tuple expressed as seconds since
the epoch read as if it were UTC, and `utcoffset` is the timezone offset in
seconds carried by `tzinfo` (`none` for a naive datetime). -/
structure PyDatetime : Type where
  fieldsSeconds : ℚ
  utcoffset : Option ℚ

/-- Lines 122-126: a naive datetime gets `tzinfo=timezone.utc` attached, an
aware one denotes the instant `fields - offset`; the result is the value in
seconds-since-epoch(UTC) that is subtracted against `datetime.now(utc)`. -/
def resolveInstant (d : PyDatetime) : ℚ :=
  match d.utcoffset with
  | none => d.fieldsSeconds
  | some off => d.fieldsSeconds - off

/-- Lines 117-118: `resets_at_str.endswith('Z')` (the string's last
character is `Z`) makes the slice `[:-1]` (all but the last character) be
concatenated with the explicit offset `+00:00` before parsing. -/
def normalizeZ (s : String) : String :=
  if s.data.getLast? = some 'Z' then String.mk s.data.dropLast ++ "+00:00"
  else s

/-- Lines 128-145 of `format_reset_time`: rendering of the positive-or-not
duration `delta` (in seconds) into the parenthesized unit-pair string.
`int()` on the positive total is the floor; Python `//` and `%` are floor
division and floor modulus. -/
def format_reset_delta (delta : ℚ) : String :=
  if delta ≤ 0 then " (now)"
  else
    let total_seconds : ℤ := ⌊delta⌋
    let days := total_seconds.fdiv (24 * 3600)
    let remainder_after_days := total_seconds.fmod (24 * 3600)
    let hours := remainder_after_days.fdiv 3600
    let minutes := (remainder_after_days.fmod 3600).fdiv 60
    if 0 < days then " (" ++ toString days ++ "d " ++ toString hours ++ "h)"
    else if 0 < hours then
      " (" ++ toString hours ++ "h " ++ toString minutes ++ "m)"
    else if 0 < minutes then " (" ++ toString minutes ++ "m)"
    else " (<1m)"

/-- `format_reset_time` (lines 112-147) on its annotated argument type
`str | None`. `fromisoformat` abstracts `datetime.fromisoformat`, returning
`none` where Python raises `ValueError`; `nowUtc` is `datetime.now(utc)` in
seconds since the epoch. -/
def format_reset_time (fromisoformat : String → Option PyDatetime)
    (nowUtc : ℚ) (resets_at_str : Option String) : String :=
  match resets_at_str with
  | none => ""
  | some s =>
    if s = "" then ""
    else
      match fromisoformat (normalizeZ s) with
      | none => ""
      | some d => format_reset_delta (resolveInstant d - nowUtc)

/-- `format_reset_time` applied to a JSON-derived `resets_at` value: a
falsy value returns `""` before the `try` block; a truthy non-string then
raises `AttributeError` at `.endswith`, which the `except (ValueError,
TypeError)` clause does not catch. -/
def format_reset_timeJ (fromisoformat : String → Option PyDatetime)
    (nowUtc : ℚ) (v : JValue) : Except PyError String :=
  if pyTruthy v then
    match v with
    | .str s => .ok (format_reset_time fromisoformat nowUtc (some s))
    | _ => .error .attributeError
  else .ok ""

/-- Outcome of the single `urllib.request.urlopen` call in `fetch_usage`:
a network-level `URLError`, an `HTTPError` for a non-2xx status (a
subclass of `URLError`), a timeout, a response whose body bytes are valid
UTF-8 (carried here as the text `resp.read().decode()` produces), or a
response whose body bytes are not valid UTF-8, on which `.decode()` at
line 108 raises `UnicodeDecodeError`. -/
inductive HttpOutcome : Type
  | urlError : HttpOutcome
  | httpError (status : ℕ) : HttpOutcome
  | timeoutError : HttpOutcome
  | response (body : String) : HttpOutcome
  | undecodableResponse : HttpOutcome

/-- `fetch_usage` (lines 96-110): `URLError`, `JSONDecodeError` and
`TimeoutError` are caught and become `None`, so a network error, a
non-2xx status, a timeout and a body that `json.loads` rejects all yield
absence, and a decodable body is returned decoded (`json_loads` abstracts
`json.loads`, `none` standing for `JSONDecodeError`). The
`UnicodeDecodeError` raised by `resp.read().decode()` on a non-UTF-8 body
is in none of the caught classes and propagates. -/
def fetch_usage (json_loads : String → Option JValue) :
    HttpOutcome → Except PyError (Option JValue)
  | .urlError => .ok none
  | .httpError _ => .ok none
  | .timeoutError => .ok none
  | .response body => .ok (json_loads body)
  | .undecodableResponse => .error .unicodeDecodeError

/-- Outcome of the `subprocess.run` keychain lookup on macOS: non-zero exit
(`CalledProcessError` under `check=True`), `TimeoutExpired`, or captured
stdout text. -/
inductive SecurityOutcome : Type
  | calledProcessError : SecurityOutcome
  | timeoutExpired : SecurityOutcome
  | ok (stdout : String) : SecurityOutcome

/-- Outcome of `open(CREDENTIALS_PATH)` on Linux: missing file, an
existing but unreadable file (`PermissionError`), or the file's text. -/
inductive FileOutcome : Type
  | fileNotFound : FileOutcome
  | permissionError : FileOutcome
  | content (s : String) : FileOutcome

/-- The shared tail `creds.get("claudeAiOauth", \x7b\x7d).get("accessToken")`
of both credential readers; `.null` models Python `None` (the default of
the inner `.get`). Raises `AttributeError` when `creds` or the
`claudeAiOauth` member is not a dict. -/
def credsAccessToken (creds : JValue) : Except PyError JValue := do
  let inner ← pyGet creds "claudeAiOauth" (.obj [])
  pyGet inner "accessToken" .null

/-- `get_access_token_macos` (lines 67-83): the except clause catches
`CalledProcessError`, `TimeoutExpired`, `JSONDecodeError` and `KeyError`
(the latter unreachable), but not the `AttributeError` raised by `.get` on
a non-dict. -/
def get_access_token_macos (json_loads : String → Option JValue) :
    SecurityOutcome → Except PyError JValue
  | .calledProcessError => .ok .null
  | .timeoutExpired => .ok .null
  | .ok stdout =>
    let credentials := stdout.trim
    if credentials ≠ "" then
      match json_loads credentials with
      | none => .ok .null
      | some creds => credsAccessToken creds
    else .ok .null

/-- `get_access_token_linux` (lines 86-93): catches `FileNotFoundError`,
`JSONDecodeError` and `KeyError` (unreachable), but neither
`PermissionError` from `open` nor `AttributeError` from `.get` on a
non-dict. -/
def get_access_token_linux (json_loads : String → Option JValue) :
    FileOutcome → Except PyError JValue
  | .fileNotFound => .ok .null
  | .permissionError => .error .permissionError
  | .content s =>
    match json_loads s with
    | none => .ok .null
    | some creds => credsAccessToken creds

/-- `get_access_token` (lines 55-64): dispatch on `platform.system()`. -/
def get_access_token (json_loads : String → Option JValue) (system : String)
    (macOutcome : SecurityOutcome) (fileOutcome : FileOutcome) :
    Except PyError JValue :=
  if system = "Darwin" then get_access_token_macos json_loads macOutcome
  else if system = "Linux" then get_access_token_linux json_loads fileOutcome
  else .ok .null

/-- `format_usage` (lines 150-168). The argument is the value returned by
`fetch_usage` (`none` models Python `None`); `if not usage_data` also sends
any falsy decoded body to the placeholder, while a truthy non-dict body
raises `AttributeError` at `.get`. Evaluation order follows the source:
the two window dicts, the two percentages, the two reset strings, then the
two colored segments (each f-string evaluates the color call before the
`:.0f` conversion). -/
def format_usage (fromisoformat : String → Option PyDatetime) (nowUtc : ℚ)
    (usage_data : Option JValue) : Except PyError String :=
  match usage_data with
  | none => .ok (RED ++ "Usage: N/A" ++ RESET)
  | some v =>
    if pyTruthy v then do
      let five_hour_usage ← pyGet v "five_hour" (.obj [])
      let weekly_usage ← pyGet v "seven_day" (.obj [])
      let fivePctRaw ← pyGet five_hour_usage "utilization" (.num 0)
      let five_hour_percentage := pyOr fivePctRaw (.num 0)
      let weeklyPctRaw ← pyGet weekly_usage "utilization" (.num 0)
      let weekly_percentage := pyOr weeklyPctRaw (.num 0)
      let fiveResetRaw ← pyGet five_hour_usage "resets_at" .null
      let five_hour_reset_str ← format_reset_timeJ fromisoformat nowUtc fiveResetRaw
      let weeklyResetRaw ← pyGet weekly_usage "resets_at" .null
      let weekly_reset_str ← format_reset_timeJ fromisoformat nowUtc weeklyResetRaw
      let fiveColor ← get_usage_colorJ five_hour_percentage
      let fiveNum ← formatF0 five_hour_percentage
      let five_hour_str := fiveColor ++ fiveNum ++ "%" ++ RESET ++ five_hour_reset_str
      let weeklyColor ← get_usage_colorJ weekly_percentage
      let weeklyNum ← formatF0 weekly_percentage
      let weekly_str := weeklyColor ++ weeklyNum ++ "%" ++ RESET ++ weekly_reset_str
      .ok ("5h: " ++ five_hour_str ++ " | 7d: " ++ weekly_str)
    else .ok (RED ++ "Usage: N/A" ++ RESET)

/-- The field-extraction stage, lines 33-37 of `main`: project (basename of
`cwd`), model display value, and `context_window.used_percentage` with
`or 0` applied. Each `.get` on a non-dict raises `AttributeError`;
`os.path.basename` on a non-string raises `TypeError`. -/
def extract (data : JValue) :
    Except PyError (String × JValue × JValue) := do
  let cwdV ← pyGet data "cwd" (.str "")
  let project ← basename cwdV
  let modelObj ← pyGet data "model" (.obj [])
  let model ← pyGet modelObj "display_name" (.str "")
  let context_window ← pyGet data "context_window" (.obj [])
  let cpRaw ← pyGet context_window "used_percentage" (.num 0)
  .ok (project, model, pyOr cpRaw (.num 0))

/-- Line 48: `context_usage_str`, color first (the f-string evaluates
`get_usage_color(context_percentage)` before `context_percentage:.0f`). -/
def context_usage_str (context_percentage : JValue) :
    Except PyError String := do
  let color ← get_usage_colorJ context_percentage
  let numStr ← formatF0 context_percentage
  .ok (color ++ numStr ++ "%" ++ RESET)

/-- `main` (lines 25-52). `stdin` is `none` when `sys.stdin.read()` itself
raises (e.g. undecodable bytes), `some raw` the decoded text; the `try`
block sends a read failure or a `json.loads` failure to the fixed fallback
line. The remaining external effects are the credential-store outcomes and
the HTTP outcome. `.ok line` is the printed line together with exit code
0; `.error e` is an uncaught exception reaching the process boundary. -/
def main (json_loads : String → Option JValue)
    (fromisoformat : String → Option PyDatetime) (nowUtc : ℚ)
    (system : String) (macOutcome : SecurityOutcome)
    (fileOutcome : FileOutcome) (http : HttpOutcome)
    (stdin : Option String) : Except PyError String :=
  match stdin.bind json_loads with
  | none => .ok "statusline: no data"
  | some data => do
    let ext ← extract data
    let project := ext.1
    let model := ext.2.1
    let context_percentage := ext.2.2
    let access_token ← get_access_token json_loads system macOutcome fileOutcome
    let usage_str ←
      if pyTruthy access_token then do
        let usage_data ← fetch_usage json_loads http
        format_usage fromisoformat nowUtc usage_data
      else
        .ok (RED ++ "No credentials" ++ RESET)
    let ctxStr ← context_usage_str context_percentage
    .ok (project ++ " | " ++ BLUE ++ pyStr model ++ RESET ++ " | Ctx: " ++
      ctxStr ++ " | " ++ usage_str)

/-- Formulated from the claim text for reset-time humanization (not from
the source): duration at most zero renders " (now)"; at least one day
renders whole days and remainder hours; at least one hour renders whole
hours and remainder minutes; at least one minute renders whole minutes;
otherwise " (<1m)". -/
def reset_delta_spec (delta : ℚ) : String :=
  if delta ≤ 0 then " (now)"
  else if 86400 ≤ delta then
    " (" ++ toString ⌊delta / 86400⌋ ++ "d " ++
      toString ⌊(delta - 86400 * ⌊delta / 86400⌋) / 3600⌋ ++ "h)"
  else if 3600 ≤ delta then
    " (" ++ toString ⌊delta / 3600⌋ ++ "h " ++
      toString ⌊(delta - 3600 * ⌊delta / 3600⌋) / 60⌋ ++ "m)"
  else if 60 ≤ delta then " (" ++ toString ⌊delta / 60⌋ ++ "m)"
  else " (<1m)"

/-- Rank of a color string on the low/medium/high scale, for stating that
the tier is monotonic in the percentage. -/
def colorRank (c : String) : ℕ :=
  if c = RED then 2 else if c = YELLOW then 1 else 0

end Statusline

namespace Statusline

theorem floor_fdiv (a : ℚ) (n : ℤ) (hn : 0 < n) :
    ⌊a⌋.fdiv n = ⌊a / (n : ℚ)⌋ := by
  have hnq : (0 : ℚ) < (n : ℚ) := mod_cast hn
  rw [Int.fdiv_eq_ediv _ hn.le]
  symm
  rw [Int.floor_eq_iff]
  have hmod0 : 0 ≤ ⌊a⌋ % n := Int.emod_nonneg _ hn.ne.symm
  have hmodlt : ⌊a⌋ % n < n := Int.emod_lt_of_pos _ hn
  have hsplit : n * (⌊a⌋ / n) + ⌊a⌋ % n = ⌊a⌋ := Int.ediv_add_emod _ _
  constructor
  · rw [le_div_iff₀ hnq]
    have h1 : (n * (⌊a⌋ / n) : ℤ) ≤ ⌊a⌋ := by omega
    have h2 : ((n * (⌊a⌋ / n) : ℤ) : ℚ) ≤ (⌊a⌋ : ℚ) := mod_cast h1
    calc ((⌊a⌋ / n : ℤ) : ℚ) * (n : ℚ)
        = ((n * (⌊a⌋ / n) : ℤ) : ℚ) := by push_cast; ring
      _ ≤ (⌊a⌋ : ℚ) := h2
      _ ≤ a := Int.floor_le a
  · rw [div_lt_iff₀ hnq]
    have hdist : n * (⌊a⌋ / n + 1) = n * (⌊a⌋ / n) + n := by ring
    have h1 : ⌊a⌋ + 1 ≤ n * (⌊a⌋ / n + 1) := by omega
    have h2 : ((⌊a⌋ : ℚ) + 1) ≤ ((n * (⌊a⌋ / n + 1) : ℤ) : ℚ) := mod_cast h1
    calc a < (⌊a⌋ : ℚ) + 1 := Int.lt_floor_add_one a
      _ ≤ ((n * (⌊a⌋ / n + 1) : ℤ) : ℚ) := h2
      _ = ((⌊a⌋ / n : ℤ) + 1) * (n : ℚ) := by push_cast; ring

theorem fdiv_pos_iff (t n : ℤ) (ht : 0 ≤ t) (hn : 0 < n) :
    0 < t.fdiv n ↔ n ≤ t := by
  rw [Int.fdiv_eq_ediv _ hn.le]
  constructor
  · intro h
    by_contra hc
    push_neg at hc
    have : t / n = 0 := Int.ediv_eq_zero_of_lt ht hc
    omega
  · intro h
    have h1 : 1 ≤ t / n := by
      rw [Int.le_ediv_iff_mul_le hn]
      omega
    omega

theorem fmod_floor (a : ℚ) (n : ℤ) (hn : 0 < n) :
    ⌊a⌋.fmod n = ⌊a⌋ - n * ⌊a / (n : ℚ)⌋ := by
  rw [Int.fmod_eq_emod _ hn.le, Int.emod_def, ← Int.fdiv_eq_ediv _ hn.le,
    floor_fdiv a n hn]

theorem sub_fdiv_floor (a : ℚ) (z m : ℤ) (hm : 0 < m) :
    (⌊a⌋ - z).fdiv m = ⌊(a - (z : ℚ)) / (m : ℚ)⌋ := by
  rw [← Int.floor_sub_int a z, floor_fdiv _ m hm]

theorem bind_ok {α β : Type} (a : α) (f : α → Except PyError β) :
    (Except.ok a >>= f) = f a := rfl

theorem bind_error {α β : Type} (e : PyError) (f : α → Except PyError β) :
    ((Except.error e : Except PyError α) >>= f) = Except.error e := rfl

theorem pyOr_num_zero (u : ℚ) : pyOr (.num u) (.num 0) = .num u := by
  unfold pyOr pyTruthy
  by_cases h : u = 0
  · subst h; simp
  · simp [h]

theorem format_reset_delta_eq_spec (delta : ℚ) :
    format_reset_delta delta = reset_delta_spec delta := by
  simp only [format_reset_delta, reset_delta_spec]
  by_cases h0 : delta ≤ 0
  · rw [if_pos h0, if_pos h0]
  · rw [if_neg h0, if_neg h0]
    have hpos : 0 < delta := lt_of_not_le h0
    have ht0 : 0 ≤ ⌊delta⌋ := Int.floor_nonneg.mpr hpos.le
    rw [show (24 * 3600 : ℤ) = 86400 from by norm_num]
    have hd86 : ⌊delta⌋.fdiv 86400 = ⌊delta / 86400⌋ := by
      have h := floor_fdiv delta 86400 (by norm_num)
      push_cast at h
      exact h
    have hm86 : ⌊delta⌋.fmod 86400 = ⌊delta⌋ - 86400 * ⌊delta / 86400⌋ := by
      have h := fmod_floor delta 86400 (by norm_num)
      push_cast at h
      exact h
    by_cases hc1 : (86400 : ℚ) ≤ delta
    · have g1 : 0 < ⌊delta⌋.fdiv 86400 := by
        rw [fdiv_pos_iff _ _ ht0 (by norm_num)]
        exact Int.le_floor.mpr (by exact_mod_cast hc1)
      rw [if_pos g1, if_pos hc1]
      have hh : (⌊delta⌋ - 86400 * ⌊delta / 86400⌋).fdiv 3600 =
          ⌊(delta - 86400 * (⌊delta / 86400⌋ : ℚ)) / 3600⌋ := by
        have h := sub_fdiv_floor delta (86400 * ⌊delta / 86400⌋) 3600 (by norm_num)
        push_cast at h
        exact h
      rw [hd86, hm86, hh]
    · have g1 : ¬ 0 < ⌊delta⌋.fdiv 86400 := by
        rw [fdiv_pos_iff _ _ ht0 (by norm_num)]
        intro hle
        exact hc1 (by exact_mod_cast Int.le_floor.mp hle)
      rw [if_neg g1, if_neg hc1]
      have hlt1 : ⌊delta⌋ < 86400 :=
        Int.floor_lt.mpr (by exact_mod_cast lt_of_not_le hc1)
      have hmodid1 : ⌊delta⌋.fmod 86400 = ⌊delta⌋ := by
        rw [Int.fmod_eq_emod _ (by norm_num)]
        exact Int.emod_eq_of_lt ht0 hlt1
      rw [hmodid1]
      have hd36 : ⌊delta⌋.fdiv 3600 = ⌊delta / 3600⌋ := by
        have h := floor_fdiv delta 3600 (by norm_num)
        push_cast at h
        exact h
      by_cases hc2 : (3600 : ℚ) ≤ delta
      · have g2 : 0 < ⌊delta⌋.fdiv 3600 := by
          rw [fdiv_pos_iff _ _ ht0 (by norm_num)]
          exact Int.le_floor.mpr (by exact_mod_cast hc2)
        rw [if_pos g2, if_pos hc2]
        have hh : (⌊delta⌋ - 3600 * ⌊delta / 3600⌋).fdiv 60 =
            ⌊(delta - 3600 * (⌊delta / 3600⌋ : ℚ)) / 60⌋ := by
          have h := sub_fdiv_floor delta (3600 * ⌊delta / 3600⌋) 60 (by norm_num)
          push_cast at h
          exact h
        have hm36 : ⌊delta⌋.fmod 3600 = ⌊delta⌋ - 3600 * ⌊delta / 3600⌋ := by
          have h := fmod_floor delta 3600 (by norm_num)
          push_cast at h
          exact h
        rw [hd36, hm36, hh]
      · have g2 : ¬ 0 < ⌊delta⌋.fdiv 3600 := by
          rw [fdiv_pos_iff _ _ ht0 (by norm_num)]
          intro hle
          exact hc2 (by exact_mod_cast Int.le_floor.mp hle)
        rw [if_neg g2, if_neg hc2]
        have hlt2 : ⌊delta⌋ < 3600 :=
          Int.floor_lt.mpr (by exact_mod_cast lt_of_not_le hc2)
        have hmodid2 : ⌊delta⌋.fmod 3600 = ⌊delta⌋ := by
          rw [Int.fmod_eq_emod _ (by norm_num)]
          exact Int.emod_eq_of_lt ht0 hlt2
        rw [hmodid2]
        have hd60 : ⌊delta⌋.fdiv 60 = ⌊delta / 60⌋ := by
          have h := floor_fdiv delta 60 (by norm_num)
          push_cast at h
          exact h
        by_cases hc3 : (60 : ℚ) ≤ delta
        · have g3 : 0 < ⌊delta⌋.fdiv 60 := by
            rw [fdiv_pos_iff _ _ ht0 (by norm_num)]
            exact Int.le_floor.mpr (by exact_mod_cast hc3)
          rw [if_pos g3, if_pos hc3, hd60]
        · have g3 : ¬ 0 < ⌊delta⌋.fdiv 60 := by
            rw [fdiv_pos_iff _ _ ht0 (by norm_num)]
            intro hle
            exact hc3 (by exact_mod_cast Int.le_floor.mp hle)
          rw [if_neg g3, if_neg hc3]

/-- C7: reset-time humanization, on the duration from now to the
timestamp, agrees everywhere with the claimed unit-pair rendering
(" (now)" for durations at most 0, whole days and remainder hours from one
day up, whole hours and remainder minutes from one hour up, whole minutes
from one minute up, " (<1m)" below one minute); a missing or unparseable
timestamp yields the empty string, a trailing Z is normalized to the
explicit offset +00:00 before parsing, and concretely 90 minutes gives
" (1h 30m)", 2 days 3 hours gives " (2d 3h)", 30 seconds gives " (<1m)",
and non-positive durations give " (now)". -/
theorem C7_reset_time_humanization :
    (∀ delta : ℚ, format_reset_delta delta = reset_delta_spec delta) ∧
    (∀ (parse : String → Option PyDatetime) (nowUtc : ℚ),
      format_reset_time parse nowUtc none = "" ∧
      format_reset_time parse nowUtc (some "") = "") ∧
    (∀ (parse : String → Option PyDatetime) (nowUtc : ℚ) (s : String),
      s ≠ "" → parse (normalizeZ s) = none →
      format_reset_time parse nowUtc (some s) = "") ∧
    (∀ (parse : String → Option PyDatetime) (nowUtc : ℚ) (s : String)
      (d : PyDatetime), s ≠ "" → parse (normalizeZ s) = some d →
      format_reset_time parse nowUtc (some s) =
        format_reset_delta (resolveInstant d - nowUtc)) ∧
    (∀ s : String, normalizeZ (s ++ "Z") = s ++ "+00:00") ∧
    format_reset_delta 5400 = " (1h 30m)" ∧
    format_reset_delta 183600 = " (2d 3h)" ∧
    format_reset_delta 30 = " (<1m)" ∧
    format_reset_delta 0 = " (now)" ∧
    format_reset_delta (-90) = " (now)" := by
  refine ⟨format_reset_delta_eq_spec, ?_, ?_, ?_, ?_, rfl, rfl, rfl, rfl, rfl⟩
  · intro parse nowUtc
    exact ⟨rfl, rfl⟩
  · intro parse nowUtc s hs hp
    simp only [format_reset_time]
    rw [if_neg hs, hp]
  · intro parse nowUtc s d hs hp
    simp only [format_reset_time]
    rw [if_neg hs, hp]
  · intro s
    obtain ⟨l⟩ := s
    show (if (l ++ ['Z']).getLast? = some 'Z'
      then String.mk (l ++ ['Z']).dropLast ++ "+00:00"
      else String.mk (l ++ ['Z'])) = String.mk l ++ "+00:00"
    rw [List.getLast?_concat, List.dropLast_concat, if_pos rfl]

/-- Concrete test function standing in for `datetime.fromisoformat` in the
witness for C7: it accepts exactly one normalized timestamp string. -/
def parseC7 : String → Option PyDatetime := fun s =>
  if s = "2025-06-01T01:00:00+00:00" then some ⟨100, some 0⟩ else none

/-- Witness for C7 with concrete inputs: an unparseable timestamp renders
as the empty string and a parseable Z-suffixed one renders the duration. -/
theorem C7_reset_time_humanization_witness :
    format_reset_time parseC7 0 (some "x") = "" ∧
    format_reset_time parseC7 0 (some "2025-06-01T01:00:00Z") =
      format_reset_delta (resolveInstant ⟨100, some 0⟩ - 0) :=
  ⟨C7_reset_time_humanization.2.2.1 parseC7 0 "x" (by decide) rfl,
   C7_reset_time_humanization.2.2.2.1 parseC7 0 "2025-06-01T01:00:00Z"
    ⟨100, some 0⟩ (by decide) rfl⟩

/-- C9: a parseable timestamp carrying no timezone offset is interpreted
as UTC (attaching the zero offset changes nothing), and the rendered
duration subtracts the current time in UTC from the instant so obtained.
-/
theorem C9_naive_timestamp_read_as_utc :
    (∀ f : ℚ, resolveInstant ⟨f, none⟩ = f) ∧
    (∀ f : ℚ, resolveInstant ⟨f, none⟩ = resolveInstant ⟨f, some 0⟩) ∧
    (∀ (parse : String → Option PyDatetime) (nowUtc : ℚ) (s : String)
      (d : PyDatetime), s ≠ "" → parse (normalizeZ s) = some d →
      d.utcoffset = none →
      format_reset_time parse nowUtc (some s) =
        format_reset_delta (d.fieldsSeconds - nowUtc)) := by
  refine ⟨fun f => rfl, ?_, ?_⟩
  · intro f
    show f = f - 0
    rw [sub_zero]
  · intro parse nowUtc s d hs hp hoff
    obtain ⟨fs, off⟩ := d
    simp only at hoff
    subst hoff
    simp only [format_reset_time]
    rw [if_neg hs, hp]
    rfl

/-- Concrete test function standing in for `datetime.fromisoformat` in the
witness for C9: it returns a naive datetime for one fixed string. -/
def parseC9 : String → Option PyDatetime := fun s =>
  if s = "naive" then some ⟨50, none⟩ else none

/-- Witness for C9 with concrete inputs: a naive parse result is treated
exactly like one carrying an explicit zero UTC offset. -/
theorem C9_naive_timestamp_read_as_utc_witness :
    resolveInstant ⟨5, none⟩ = resolveInstant ⟨5, some 0⟩ ∧
    format_reset_time parseC9 20 (some "naive") =
      format_reset_delta ((50 : ℚ) - 20) :=
  ⟨C9_naive_timestamp_read_as_utc.2.1 5,
   C9_naive_timestamp_read_as_utc.2.2 parseC9 20 "naive" ⟨50, none⟩
    (by decide) rfl rfl⟩

/-- C6: for every percentage p (including values below 0 and above 100),
the color tier function yields low (green) iff p < 50, medium (yellow) iff
50 <= p < 80, and high (red) iff p >= 80; exactly 50 maps to medium and
exactly 80 to high, and the tier is monotonic in p. -/
theorem C6_usage_color_tiers :
    (∀ p : ℚ, get_usage_color p = GREEN ↔ p < 50) ∧
    (∀ p : ℚ, get_usage_color p = YELLOW ↔ 50 ≤ p ∧ p < 80) ∧
    (∀ p : ℚ, get_usage_color p = RED ↔ 80 ≤ p) ∧
    get_usage_color 50 = YELLOW ∧ get_usage_color 80 = RED ∧
    (∀ p q : ℚ, p ≤ q →
      colorRank (get_usage_color p) ≤ colorRank (get_usage_color q)) := by
  have hgy : GREEN ≠ YELLOW := by decide
  have hgr : GREEN ≠ RED := by decide
  have hyr : YELLOW ≠ RED := by decide
  have hgreen : ∀ p : ℚ, get_usage_color p = GREEN ↔ p < 50 := by
    intro p
    unfold get_usage_color
    split_ifs with h1 h2
    · exact iff_of_false (Ne.symm hgr) (by intro h; linarith)
    · exact iff_of_false (Ne.symm hgy) (not_lt.mpr h2)
    · exact iff_of_true rfl (lt_of_not_le h2)
  have hyellow : ∀ p : ℚ, get_usage_color p = YELLOW ↔ 50 ≤ p ∧ p < 80 := by
    intro p
    unfold get_usage_color
    split_ifs with h1 h2
    · exact iff_of_false (Ne.symm hyr) (by rintro ⟨-, h⟩; linarith)
    · exact iff_of_true rfl ⟨h2, lt_of_not_le h1⟩
    · exact iff_of_false hgy (by rintro ⟨h, -⟩; exact h2 h)
  have hred : ∀ p : ℚ, get_usage_color p = RED ↔ 80 ≤ p := by
    intro p
    unfold get_usage_color
    split_ifs with h1 h2
    · exact iff_of_true rfl h1
    · exact iff_of_false hyr h1
    · exact iff_of_false hgr h1
  have rg : colorRank GREEN = 0 := rfl
  have ry : colorRank YELLOW = 1 := rfl
  have rr : colorRank RED = 2 := rfl
  refine ⟨hgreen, hyellow, hred, ?_, ?_, ?_⟩
  · exact (hyellow 50).mpr ⟨le_refl _, by norm_num⟩
  · exact (hred 80).mpr (le_refl _)
  · intro p q hpq
    rcases lt_or_le p 50 with hp | hp
    · rw [(hgreen p).mpr hp, rg]
      exact Nat.zero_le _
    · rcases le_or_lt 80 p with hp80 | hp80
      · have hq80 : 80 ≤ q := le_trans hp80 hpq
        rw [(hred p).mpr hp80, (hred q).mpr hq80]
      · rw [(hyellow p).mpr ⟨hp, hp80⟩, ry]
        rcases le_or_lt 80 q with hq80 | hq80
        · rw [(hred q).mpr hq80, rr]
          omega
        · have hq50 : 50 ≤ q := le_trans hp hpq
          rw [(hyellow q).mpr ⟨hq50, hq80⟩, ry]

/-- Witness for C6 at concrete inputs: 50 is medium, 80 is high, and the
tier rank does not decrease from 40 to 90. -/
theorem C6_usage_color_tiers_witness :
    get_usage_color 50 = YELLOW ∧ get_usage_color 80 = RED ∧
    colorRank (get_usage_color 40) ≤ colorRank (get_usage_color 90) :=
  ⟨C6_usage_color_tiers.2.2.2.1,
   C6_usage_color_tiers.2.2.2.2.1,
   C6_usage_color_tiers.2.2.2.2.2 40 90 (by norm_num)⟩

/-- Concrete test function standing in for `json.loads` on the single
text `42` (a valid JSON document whose top-level value is the number 42);
every other text is rejected. -/
def loads42 : String → Option JValue := fun s =>
  if s = "42" then some (.num 42) else none

/-- Concrete test function standing in for `json.loads` on the single
text `[]` (a valid JSON document whose top-level value is an empty
array); every other text is rejected. -/
def loadsArr : String → Option JValue := fun s =>
  if s = "[]" then some (.arr []) else none

/-- C3 counterexample: a JSON object whose `model` member is the number 5
makes the extraction stage raise `AttributeError` (`int` has no attribute
`get`), so extraction is not exception-free for arbitrary member types. -/
theorem C3_counterexample_model_number :
    extract (.obj [("model", .num 5)]) = .error .attributeError := rfl

/-- C3 (amended): for every JSON object whose `cwd` member (when present)
is a string and whose `model` and `context_window` members (when present)
are objects, extraction raises no exception; with all three absent the
results are the defaults: empty project, empty-string model, percentage 0;
and a null `used_percentage` is treated as 0. -/
theorem C3_extract_welltyped_total (fields : List (String × JValue))
    (hcwd : ∀ v, fields.lookup "cwd" = some v → ∃ s, v = JValue.str s)
    (hmodel : ∀ v, fields.lookup "model" = some v → ∃ l, v = JValue.obj l)
    (hcw : ∀ v, fields.lookup "context_window" = some v →
      ∃ l, v = JValue.obj l) :
    (∃ r, extract (.obj fields) = .ok r) ∧
    extract (.obj []) = .ok ("", .str "", .num 0) ∧
    extract (.obj [("context_window", .obj [("used_percentage", .null)])]) =
      .ok ("", .str "", .num 0) := by
  refine ⟨?_, rfl, rfl⟩
  obtain ⟨ps, hps⟩ : ∃ s, (fields.lookup "cwd").getD (.str "") =
      JValue.str s := by
    rcases h : fields.lookup "cwd" with _ | v
    · exact ⟨"", rfl⟩
    · obtain ⟨s, rfl⟩ := hcwd v h
      exact ⟨s, rfl⟩
  obtain ⟨ml, hml⟩ : ∃ l, (fields.lookup "model").getD (.obj []) =
      JValue.obj l := by
    rcases h : fields.lookup "model" with _ | v
    · exact ⟨[], rfl⟩
    · obtain ⟨l, rfl⟩ := hmodel v h
      exact ⟨l, rfl⟩
  obtain ⟨cl, hcl⟩ : ∃ l, (fields.lookup "context_window").getD (.obj []) =
      JValue.obj l := by
    rcases h : fields.lookup "context_window" with _ | v
    · exact ⟨[], rfl⟩
    · obtain ⟨l, rfl⟩ := hcw v h
      exact ⟨l, rfl⟩
  simp only [extract, pyGet, hps, hml, hcl, basename, bind_ok]
  exact ⟨_, rfl⟩

/-- Witness for C3 at concrete inputs: an object with only a string `cwd`
extracts without exception, and the empty object gives the defaults. -/
theorem C3_extract_welltyped_total_witness :
    (∃ r, extract (.obj [("cwd", .str "/home/u/myproj")]) = .ok r) ∧
    extract (.obj []) = .ok ("", .str "", .num 0) :=
  ⟨(C3_extract_welltyped_total [("cwd", .str "/home/u/myproj")]
      (by intro v h; injection h with h; exact ⟨"/home/u/myproj", h.symm⟩)
      (by intro v h; simp [List.lookup] at h)
      (by intro v h; simp [List.lookup] at h)).1,
   (C3_extract_welltyped_total []
      (by intro v h; simp [List.lookup] at h)
      (by intro v h; simp [List.lookup] at h)
      (by intro v h; simp [List.lookup] at h)).2.1⟩

/-- C4: contrary to the claim, the credential locator can throw past its
boundary. On Linux, a credentials file holding the valid JSON text `42`
(top level not an object) reaches `creds.get`, which raises an
`AttributeError` that the `except (FileNotFoundError, JSONDecodeError,
KeyError)` clause does not catch; an existing but unreadable file likewise
raises an uncaught `PermissionError`. -/
theorem C4_credential_locator_uncaught_errors :
    get_access_token loads42 "Linux" .calledProcessError (.content "42") =
      .error .attributeError ∧
    get_access_token loads42 "Linux" .calledProcessError .permissionError =
      .error .permissionError := ⟨rfl, rfl⟩

/-- C1: contrary to the claim, not every stdin leads to a printed status
line and a successful exit: the valid JSON document `[]` passes the
guarded `json.loads` and then `data.get("cwd", "")` raises an uncaught
`AttributeError`, so the process terminates with a traceback and a
non-zero exit code. -/
theorem C1_array_stdin_uncaught_error :
    main loadsArr (fun _ => none) 0 "Linux" .calledProcessError
      .fileNotFound .urlError (some "[]") = .error .attributeError := rfl

/-- C2: contrary to the claim, valid JSON stdin whose top-level value is
not an object does not produce the fallback line: `json.loads` succeeds
inside the guarded region, and field extraction then raises an uncaught
`AttributeError` (number 42 as the whole document). The fallback line is
printed exactly when reading or decoding stdin itself fails. -/
theorem C2_nonobject_stdin_uncaught_error :
    main loads42 (fun _ => none) 0 "Linux" .calledProcessError
      .fileNotFound .urlError (some "42") = .error .attributeError ∧
    (∀ (json_loads : String → Option JValue)
      (fromisoformat : String → Option PyDatetime) (nowUtc : ℚ)
      (system : String) (macOutcome : SecurityOutcome)
      (fileOutcome : FileOutcome) (http : HttpOutcome)
      (stdin : Option String),
      stdin.bind json_loads = none →
      main json_loads fromisoformat nowUtc system macOutcome fileOutcome
        http stdin = .ok "statusline: no data") := by
  refine ⟨rfl, ?_⟩
  intro json_loads fromisoformat nowUtc system macOutcome fileOutcome http
    stdin h
  simp only [main]
  rw [h]

/-- Witness for C2 at a concrete input: empty stdin (modelled as a read
that yields no JSON document) prints the fallback line. -/
theorem C2_nonobject_stdin_uncaught_error_witness :
    main loads42 (fun _ => none) 0 "Linux" SecurityOutcome.calledProcessError
      FileOutcome.fileNotFound HttpOutcome.urlError none =
      .ok "statusline: no data" :=
  C2_nonobject_stdin_uncaught_error.2 loads42 (fun _ => none) 0 "Linux"
    .calledProcessError .fileNotFound .urlError none rfl

/-- The end-to-end scenario's stdin document from the claim. -/
def scenarioInput : String :=
  "\x7b\"cwd\":\"/home/u/myproj\",\"model\":\x7b\"display_name\":\"Claude\"\x7d,\"context_window\":\x7b\"used_percentage\":42\x7d\x7d"

/-- A credentials-file text whose decoded form carries an access token. -/
def credentialsJson : String :=
  "\x7b\"claudeAiOauth\":\x7b\"accessToken\":\"tok\"\x7d\x7d"

/-- Concrete test function standing in for `json.loads` on the two
documents of the end-to-end scenario (`json.loads` decodes each to the
corresponding object); every other text is rejected. -/
def scenarioLoads : String → Option JValue := fun s =>
  if s = scenarioInput then
    some (.obj [("cwd", .str "/home/u/myproj"),
      ("model", .obj [("display_name", .str "Claude")]),
      ("context_window", .obj [("used_percentage", .num 42)])])
  else if s = credentialsJson then
    some (.obj [("claudeAiOauth", .obj [("accessToken", .str "tok")])])
  else none

/-- C5: contrary to the claim, not every outcome of the GET is absorbed:
`resp.read().decode()` at line 108 raises `UnicodeDecodeError` on a 2xx
response whose body bytes are not valid UTF-8, and `except (URLError,
JSONDecodeError, TimeoutError)` catches none of its classes, so the
fetcher raises and the exception propagates uncaught through `main`. The
listed failures are absorbed as claimed: a network error, a non-2xx
status, a timeout and a JSON-rejected (but UTF-8) body give `None`, and a
decodable body is returned JSON-decoded. -/
theorem C5_fetch_usage_unicode_decode_error :
    (∀ json_loads : String → Option JValue,
      fetch_usage json_loads .undecodableResponse =
        .error .unicodeDecodeError) ∧
    main scenarioLoads (fun _ => none) 0 "Linux" .calledProcessError
      (.content credentialsJson) .undecodableResponse (some scenarioInput) =
      .error .unicodeDecodeError ∧
    (∀ json_loads : String → Option JValue,
      fetch_usage json_loads .urlError = .ok none ∧
      fetch_usage json_loads .timeoutError = .ok none) ∧
    (∀ (json_loads : String → Option JValue) (status : ℕ),
      fetch_usage json_loads (.httpError status) = .ok none) ∧
    (∀ (json_loads : String → Option JValue) (body : String),
      json_loads body = none →
      fetch_usage json_loads (.response body) = .ok none) ∧
    (∀ (json_loads : String → Option JValue) (body : String) (v : JValue),
      json_loads body = some v →
      fetch_usage json_loads (.response body) = .ok (some v)) := by
  refine ⟨fun jl => rfl, rfl, fun jl => ⟨rfl, rfl⟩, fun jl status => rfl,
    ?_, ?_⟩
  · intro jl body h
    simp [fetch_usage, h]
  · intro jl body v h
    simp [fetch_usage, h]

/-- Witness for C5 at concrete inputs: a JSON-rejected body gives `None`
and the decodable body `42` comes back decoded. -/
theorem C5_fetch_usage_unicode_decode_error_witness :
    fetch_usage loads42 (.response "x") = .ok none ∧
    fetch_usage loads42 (.response "42") = .ok (some (.num 42)) :=
  ⟨C5_fetch_usage_unicode_decode_error.2.2.2.2.1 loads42 "x" rfl,
   C5_fetch_usage_unicode_decode_error.2.2.2.2.2 loads42 "42"
    (.num 42) rfl⟩

/-- C8: the output line is assembled pipe-separated as project, colored
model, `Ctx:` with colored context percentage, then the usage segment;
with no credential the usage segment is the single colored placeholder
`No credentials`, with a credential but a failed fetch it is `Usage: N/A`,
and with usage data it is the pair of `5h:` and `7d:` fields, each a
colored percentage followed by its reset string. The claim's end-to-end
scenario produces exactly the claimed line, in the claimed order. -/
theorem C8_line_assembly :
    main scenarioLoads (fun _ => none) 0 "Linux" .calledProcessError
      .fileNotFound .urlError (some scenarioInput) =
      .ok ("myproj | " ++ BLUE ++ "Claude" ++ RESET ++ " | Ctx: " ++ GREEN ++
        "42%" ++ RESET ++ " | " ++ RED ++ "No credentials" ++ RESET) ∧
    main scenarioLoads (fun _ => none) 0 "Linux" .calledProcessError
      (.content credentialsJson) .urlError (some scenarioInput) =
      .ok ("myproj | " ++ BLUE ++ "Claude" ++ RESET ++ " | Ctx: " ++ GREEN ++
        "42%" ++ RESET ++ " | " ++ RED ++ "Usage: N/A" ++ RESET) ∧
    (∀ (parse : String → Option PyDatetime) (nowUtc : ℚ),
      format_usage parse nowUtc none = .ok (RED ++ "Usage: N/A" ++ RESET)) ∧
    (∀ (parse : String → Option PyDatetime) (nowUtc : ℚ) (u5 u7 : ℚ),
      format_usage parse nowUtc (some (.obj
        [("five_hour", .obj [("utilization", .num u5)]),
         ("seven_day", .obj [("utilization", .num u7)])])) =
      .ok ("5h: " ++ (get_usage_color u5 ++ formatF0num u5 ++ "%" ++ RESET) ++
        " | 7d: " ++
        (get_usage_color u7 ++ formatF0num u7 ++ "%" ++ RESET))) := by
  have h42 : formatF0num 42 = "42" := by
    have hf : ⌊(42 : ℚ)⌋ = 42 := by norm_num
    simp only [formatF0num, roundHalfEven, hf]
    norm_num
    rfl
  refine ⟨?_, ?_, fun parse nowUtc => rfl, ?_⟩
  · have step : main scenarioLoads (fun _ => none) 0 "Linux"
        .calledProcessError .fileNotFound .urlError (some scenarioInput) =
        .ok ("myproj | " ++ BLUE ++ "Claude" ++ RESET ++ " | Ctx: " ++
          (GREEN ++ formatF0num 42 ++ "%" ++ RESET) ++ " | " ++
          (RED ++ "No credentials" ++ RESET)) := rfl
    rw [step, h42]
    rfl
  · have step : main scenarioLoads (fun _ => none) 0 "Linux"
        .calledProcessError (.content credentialsJson) .urlError
        (some scenarioInput) =
        .ok ("myproj | " ++ BLUE ++ "Claude" ++ RESET ++ " | Ctx: " ++
          (GREEN ++ formatF0num 42 ++ "%" ++ RESET) ++ " | " ++
          (RED ++ "Usage: N/A" ++ RESET)) := rfl
    rw [step, h42]
    rfl
  · intro parse nowUtc u5 u7
    simp [format_usage, pyGet, pyOr_num_zero, format_reset_timeJ, pyTruthy,
      get_usage_colorJ, formatF0, List.lookup, bind_ok, bind_error,
      String.append_empty]

/-- C10: every displayed percentage is rendered rounded half-to-even to a
whole number while the color tier is chosen from the raw value: the
context field is exactly the raw-value color followed by the rounded
number, and every p with 79.5 <= p < 80 displays as `80%` yet is colored
with the medium (yellow) tier, not the high (red) one. -/
theorem C10_rounded_display_raw_tier :
    (∀ p : ℚ, context_usage_str (.num p) =
      .ok (get_usage_color p ++ formatF0num p ++ "%" ++ RESET)) ∧
    (∀ p : ℚ, (79.5 : ℚ) ≤ p → p < 80 →
      formatF0num p = "80" ∧ get_usage_color p = YELLOW ∧ YELLOW ≠ RED) := by
  constructor
  · intro p
    rfl
  · intro p h1 h2
    have hfl : ⌊p⌋ = 79 := by
      apply Int.floor_eq_iff.mpr
      constructor
      · push_cast
        linarith
      · push_cast
        linarith
    have hr : roundHalfEven p = 80 := by
      simp only [roundHalfEven, hfl]
      rw [if_neg (by push_cast; linarith)]
      by_cases he : (1 : ℚ)/2 < p - ((79 : ℤ) : ℚ)
      · rw [if_pos he]
        decide
      · rw [if_neg he, if_neg (by decide)]
        decide
    refine ⟨?_, ?_, by decide⟩
    · simp only [formatF0num, hr]
      rw [if_neg (by simp)]
      rfl
    · unfold get_usage_color
      rw [if_neg (not_le.mpr h2), if_pos (by linarith)]

/-- Witness for C10 at the boundary input 79.5: the display rounds up to
80 percent while the color stays yellow. -/
theorem C10_rounded_display_raw_tier_witness :
    formatF0num (79.5 : ℚ) = "80" ∧ get_usage_color (79.5 : ℚ) = YELLOW :=
  ⟨(C10_rounded_display_raw_tier.2 79.5 (le_refl _) (by norm_num)).1,
   (C10_rounded_display_raw_tier.2 79.5 (le_refl _) (by norm_num)).2.1⟩

end Statusline
